import Mathlib

/-
Verification of the nailgun process-pool execution subsystem
(src/rust/engine/process_execution/src/nailgun/mod.rs).

The Rust source is shallowly embedded: pure request construction becomes
pure Lean functions; the asynchronous run() orchestration becomes an
explicit function from abstract external collaborators (the local runner,
the connect operation of the pool, the digest function, the workdir creator) to
a result together with a trace of collaborator invocations; the capacity-1
AsyncSemaphore that guards Pool.connect becomes a step relation on a
scheduler state.  Components of the repository that are not part of the
excerpted source (the JVM command-line splitter, the semaphore crate, the
multi-platform request wrapper) are modelled from the specification and
marked as such in their doc comments.
-/

/-- Target platform tag carried by a request. -/
inductive Platform where
  | linux
  | darwin
deriving DecidableEq, Repr

/-- A content digest (fingerprint plus serialized byte count). -/
structure Digest where
  fingerprint : String
  size_bytes : Nat
deriving DecidableEq, Repr

/-- hashing::EMPTY_DIGEST - the digest of the empty file collection. -/
def EMPTY_DIGEST : Digest :=
  { fingerprint := "e3b0c44298fc1c149afbf4c8996fb92427ae41e4649b934ca495991b7852b855"
    size_bytes := 0 }

/-- std::time::Duration as (seconds, nanoseconds). -/
structure Duration where
  secs : Nat
  nanos : Nat
deriving DecidableEq, Repr

/-- A TCP port (u16 in the source; width plays no role in these claims). -/
abbrev Port : Type := Nat

/-- BTreeMap<String, String> environments are modelled as key-sorted
association lists; envInsert mirrors BTreeMap::insert (replace on equal
key, keep key order otherwise). -/
def envInsert : List (String × String) → String → String → List (String × String)
  | [], k, v => [(k, v)]
  | (k0, v0) :: rest, k, v =>
    if k < k0 then (k, v) :: (k0, v0) :: rest
    else if k = k0 then (k, v) :: rest
    else (k0, v0) :: envInsert rest k v

/-- Lookup of a key in an environment (first binding wins, as in a map). -/
def envLookup (k : String) : List (String × String) → Option String
  | [] => none
  | (k0, v0) :: rest => if k = k0 then some v0 else envLookup k rest

/-- ExecuteProcessRequest from the process_execution crate.  The source
field unsafe_local_only_files_because_we_favor_speed_over_correctness_for_this_rule
is shortened here to local_only_files_because_we_favor_speed_over_correctness_for_this_rule. -/
structure ExecuteProcessRequest where
  argv : List String
  env : List (String × String)
  input_files : Digest
  output_files : List String
  output_directories : List String
  timeout : Duration
  description : String
  local_only_files_because_we_favor_speed_over_correctness_for_this_rule : Digest
  jdk_home : Option String
  target_platform : Platform
  is_nailgunnable : Bool
deriving DecidableEq, Repr

/-- Hardcoded constant: the nailgun server main class. -/
def NAILGUN_MAIN_CLASS : String := "com.martiansoftware.nailgun.NGServer"

/-- Hardcoded constant: the argument telling the server to bind an
ephemeral port. -/
def ARGS_TO_START_NAILGUN : List String := [":0"]

/-- Hardcoded constant: the environment variable the client reads the
server port from. -/
def NAILGUN_PORT_ENV_VAR_FOR_CLIENT : String := "NAILGUN_PORT"

/-- Hardcoded constant: relative path of the nailgun client binary. -/
def NG_CLIENT_PATH : String := "bin/ng/1.0.0/ng"

/-- construct_nailgun_server_request from nailgun/mod.rs: the request that
would be used to start a nailgun server. -/
def construct_nailgun_server_request (nailgun_name : String)
    (args_for_the_jvm : List String) (jdk : String) (platform : Platform) :
    ExecuteProcessRequest :=
  { argv := args_for_the_jvm ++ [NAILGUN_MAIN_CLASS] ++ ARGS_TO_START_NAILGUN
    env := []
    input_files := EMPTY_DIGEST
    output_files := []
    output_directories := []
    timeout := { secs := 1000, nanos := 0 }
    description := "Start a nailgun server for " ++ nailgun_name
    local_only_files_because_we_favor_speed_over_correctness_for_this_rule :=
      EMPTY_DIGEST
    jdk_home := some jdk
    target_platform := platform
    is_nailgunnable := true }

/-- construct_nailgun_client_request from nailgun/mod.rs: the request that
runs the client against an already-running server on nailgun_port. -/
def construct_nailgun_client_request (original_req : ExecuteProcessRequest)
    (python_distribution : String) (client_main_class : String)
    (client_args : List String) (nailgun_port : Port) :
    ExecuteProcessRequest :=
  { argv := [python_distribution, NG_CLIENT_PATH, "--", client_main_class] ++ client_args
    env := envInsert original_req.env NAILGUN_PORT_ENV_VAR_FOR_CLIENT (Nat.repr nailgun_port)
    input_files := original_req.input_files
    output_files := original_req.output_files
    output_directories := original_req.output_directories
    timeout := original_req.timeout
    description := original_req.description
    local_only_files_because_we_favor_speed_over_correctness_for_this_rule :=
      original_req.local_only_files_because_we_favor_speed_over_correctness_for_this_rule
    jdk_home := none
    target_platform := original_req.target_platform
    is_nailgunnable := original_req.is_nailgunnable }

/-- CommandRunner::calculate_nailgun_name from nailgun/mod.rs. -/
def calculate_nailgun_name (main_class : String) : String :=
  "nailgun_server_" ++ main_class

/-- Result of splitting a JVM command line. -/
structure ParsedJVMCommandLines where
  nailgun_args : List String
  client_args : List String
  client_main_class : String
deriving DecidableEq, Repr

/-- True when the token is a JVM flag (starts with a dash). -/
def isJvmFlag (a : String) : Bool :=
  match a.toList with
  | [] => false
  | c :: _ => c == '-'

/-- True when the JVM flag consumes the following token as its value. -/
def flagTakesValue (a : String) : Bool :=
  a == "-cp" || a == "-classpath"

/-- Modelled from the spec: the recursive scan of the command-line
splitter (parsed_jvm_command_lines.rs is not part of the excerpted
source).  JVM flags (classpath flags consuming their value) accumulate
into nailgun_args until the first non-flag token, which is the main
class; the remainder are the client args; a command line with no
main-class token is a hard parse failure. -/
def splitJvmArgs (nailgun_args : List String) :
    List String → Except String ParsedJVMCommandLines
  | [] => Except.error ("Malformed JVM command line: no main class found")
  | a :: rest =>
    if flagTakesValue a then
      match rest with
      | [] => Except.error ("Malformed JVM command line: flag " ++ a ++ " expects a value")
      | b :: rest2 => splitJvmArgs (nailgun_args ++ [a, b]) rest2
    else if isJvmFlag a then
      splitJvmArgs (nailgun_args ++ [a]) rest
    else
      Except.ok { nailgun_args := nailgun_args, client_args := rest, client_main_class := a }

/-- Modelled from the spec: ParsedJVMCommandLines::parse_command_lines. -/
def parse_command_lines (argv : List String) : Except String ParsedJVMCommandLines :=
  splitJvmArgs [] argv

/-- Modelled from the spec: the multi-platform request wrapper; its only
roles in this core are to be passed to the external local runner and to
wrap a single constructed request. -/
structure MultiPlatformExecuteProcessRequest where
  requests : List ExecuteProcessRequest
deriving DecidableEq, Repr

/-- MultiPlatformExecuteProcessRequest::from on a single request. -/
def mpFrom (r : ExecuteProcessRequest) : MultiPlatformExecuteProcessRequest :=
  { requests := [r] }

/-- The slice of the engine Context that this subsystem reads. -/
structure Context where
  build_id : String
deriving DecidableEq, Repr

/-- The external collaborators of CommandRunner::run, abstracted as
functions: the request extraction of the inner local runner and execution, the
metadata digest, workdir creation, and NailgunPool::connect.  connect
takes (name, server request, workdir, server-request digest, build id,
input files digest) and yields a port. -/
structure Collaborators (ρ : Type) where
  extract_compatible_request :
    MultiPlatformExecuteProcessRequest → Option ExecuteProcessRequest
  inner_run : MultiPlatformExecuteProcessRequest → Context → Except String ρ
  digest : MultiPlatformExecuteProcessRequest → Digest
  get_nailgun_workdir : String → Except String String
  connect : String → ExecuteProcessRequest → String → Digest → String → Digest →
    Except String Port

/-- Observable collaborator invocations that spawn or may spawn external
processes: a Pool.connect call (the only site at which a server process
can be spawned) and a delegation of a request to the local executor. -/
inductive Effect where
  | connect (nailgun_name : String) (server_req : ExecuteProcessRequest)
  | delegateRun (req : MultiPlatformExecuteProcessRequest)
deriving DecidableEq, Repr

/-- CommandRunner::run from nailgun/mod.rs, embedded as a function from
the collaborators and inputs to (result, effect trace).  A none
result models the panic of .unwrap() on a failed
extract_compatible_request; a some result carries the Result the future
resolves to.  Control flow follows the source order: extract and unwrap,
nailgunnable check (pass-through), parse, name, jdk_home check, server
request and digest, workdir, connect under the semaphore, client
request, delegate. -/
def CommandRunner.run {ρ : Type} (c : Collaborators ρ) (python_distribution : String)
    (req : MultiPlatformExecuteProcessRequest) (context : Context) :
    Option (Except String ρ) × List Effect :=
  match c.extract_compatible_request req with
  | none => (none, [])
  | some original_request =>
    if !original_request.is_nailgunnable then
      (some (c.inner_run req context), [Effect.delegateRun req])
    else
      match parse_command_lines original_request.argv with
      | Except.error e => (some (Except.error e), [])
      | Except.ok parsed =>
        let nailgun_name := calculate_nailgun_name parsed.client_main_class
        match original_request.jdk_home with
        | none =>
          (some (Except.error ("JDK home must be specified for all nailgunnable requests.")), [])
        | some jdk_home =>
          let nailgun_req := construct_nailgun_server_request nailgun_name
            parsed.nailgun_args jdk_home original_request.target_platform
          let nailgun_req_digest := c.digest (mpFrom nailgun_req)
          match c.get_nailgun_workdir nailgun_name with
          | Except.error e => (some (Except.error e), [])
          | Except.ok workdir =>
            match c.connect nailgun_name nailgun_req workdir nailgun_req_digest
                context.build_id original_request.input_files with
            | Except.error e =>
              (some (Except.error ("Failed to connect to nailgun! " ++ e)),
               [Effect.connect nailgun_name nailgun_req])
            | Except.ok nailgun_port =>
              let full_client_req := construct_nailgun_client_request original_request
                python_distribution parsed.client_main_class parsed.client_args nailgun_port
              (some (c.inner_run (mpFrom full_client_req) context),
               [Effect.connect nailgun_name nailgun_req,
                Effect.delegateRun (mpFrom full_client_req)])

/-- Number of permits of the semaphore built in CommandRunner::new
(AsyncSemaphore::new(1)). -/
def asyncSemaphorePermits : Nat := 1

/-- Where one nailgunnable run() call stands with respect to the
semaphore: not yet acquired; holding the permit while its Pool.connect
call is in flight; permit released (connect resolved, successfully or
not); client delegation done. -/
inductive Phase where
  | beforeAcquire
  | inConnect
  | afterRelease
  | doneClient
deriving DecidableEq, Repr

/-- Scheduler state for n concurrent nailgunnable run() calls sharing the
one shared runner semaphore: available permits plus the phase of each call. -/
structure PoolSchedState (n : Nat) where
  sem : Nat
  phase : Fin n → Phase

/-- Initial scheduler state: the semaphore holds its full permit count
and every call is before its acquire. -/
def initPoolState (n : Nat) : PoolSchedState n :=
  { sem := asyncSemaphorePermits, phase := fun _ => Phase.beforeAcquire }

/-- Modelled from the spec: the semantics of AsyncSemaphore::with_acquired
(the async_semaphore crate is not part of the excerpted source) applied to
the structure of run(): the closure passed to with_acquired contains
exactly the Pool.connect call, so a call enters inConnect only by taking a
permit; the permit returns in the same step in which connect resolves; the
client delegation chained after with_acquired neither needs nor touches
the semaphore. -/
inductive PoolStep (n : Nat) : PoolSchedState n → PoolSchedState n → Prop where
  | acquireAndConnect (s : PoolSchedState n) (i : Fin n)
      (hp : s.phase i = Phase.beforeAcquire) (hs : 0 < s.sem) :
      PoolStep n s { sem := s.sem - 1, phase := Function.update s.phase i Phase.inConnect }
  | connectResolves (s : PoolSchedState n) (i : Fin n)
      (hp : s.phase i = Phase.inConnect) :
      PoolStep n s { sem := s.sem + 1, phase := Function.update s.phase i Phase.afterRelease }
  | runClient (s : PoolSchedState n) (i : Fin n)
      (hp : s.phase i = Phase.afterRelease) :
      PoolStep n s { sem := s.sem, phase := Function.update s.phase i Phase.doneClient }

/-- States reachable by interleaving the n calls from the initial state. -/
inductive PoolReachable (n : Nat) : PoolSchedState n → Prop where
  | init : PoolReachable n (initPoolState n)
  | step {s t : PoolSchedState n} :
      PoolReachable n s → PoolStep n s t → PoolReachable n t

/-- Inductive invariant: never more than one permit exists, and a call
inside connect implies the permit is taken and it is the only such call. -/
def PoolInv {n : Nat} (s : PoolSchedState n) : Prop :=
  s.sem ≤ 1 ∧
    ∀ i : Fin n, s.phase i = Phase.inConnect →
      s.sem = 0 ∧ ∀ j : Fin n, s.phase j = Phase.inConnect → j = i

theorem poolInv_init (n : Nat) : PoolInv (initPoolState n) := by
  constructor
  · exact Nat.le_refl 1
  · intro i hi
    simp [initPoolState] at hi

theorem poolInv_step {n : Nat} {s t : PoolSchedState n}
    (hinv : PoolInv s) (hstep : PoolStep n s t) : PoolInv t := by
  obtain ⟨hle, hconn⟩ := hinv
  cases hstep with
  | acquireAndConnect i hp hs =>
    have hsem1 : s.sem = 1 := Nat.le_antisymm hle hs
    refine ⟨by simp [hsem1], ?_⟩
    intro k hk
    simp only [Function.update_apply] at hk
    refine ⟨by simp [hsem1], ?_⟩
    intro j hj
    simp only [Function.update_apply] at hj
    by_cases hki : k = i
    · by_cases hji : j = i
      · rw [hji, hki]
      · simp only [hji, if_false] at hj
        have := (hconn j hj).1
        omega
    · simp only [hki, if_false] at hk
      have := (hconn k hk).1
      omega
  | connectResolves i hp =>
    have hzero : s.sem = 0 := (hconn i hp).1
    have huniq := (hconn i hp).2
    refine ⟨by simp [hzero], ?_⟩
    intro k hk
    simp only [Function.update_apply] at hk
    by_cases hki : k = i
    · simp only [hki, if_true, if_pos rfl] at hk
      exact absurd hk (by simp)
    · simp only [hki, if_false] at hk
      exact absurd (huniq k hk) hki
  | runClient i hp =>
    refine ⟨hle, ?_⟩
    intro k hk
    simp only [Function.update_apply] at hk
    by_cases hki : k = i
    · simp only [hki, if_pos rfl] at hk
      exact absurd hk (by simp)
    · simp only [hki, if_false] at hk
      obtain ⟨hzero, huniq⟩ := hconn k hk
      refine ⟨hzero, ?_⟩
      intro j hj
      simp only [Function.update_apply] at hj
      by_cases hji : j = i
      · simp only [hji, if_pos rfl] at hj
        exact absurd hj (by simp)
      · simp only [hji, if_false] at hj
        exact huniq j hj

theorem poolInv_reachable {n : Nat} {s : PoolSchedState n}
    (h : PoolReachable n s) : PoolInv s := by
  induction h with
  | init => exact poolInv_init n
  | step _ hstep ih => exact poolInv_step ih hstep

/-- Replacing a binding and then looking it up yields the new value. -/
theorem envLookup_envInsert_self (e : List (String × String)) (k v : String) :
    envLookup k (envInsert e k v) = some v := by
  induction e with
  | nil => simp [envInsert, envLookup]
  | cons hd tl ih =>
    obtain ⟨k0, v0⟩ := hd
    by_cases h1 : k < k0
    · simp [envInsert, h1, envLookup]
    · by_cases h2 : k = k0
      · simp [envInsert, h1, h2, envLookup]
      · simp [envInsert, h1, h2, envLookup, ih]

/-- Replacing one binding leaves the lookup of every other key unchanged. -/
theorem envLookup_envInsert_ne (e : List (String × String)) (k q v : String)
    (h : q ≠ k) :
    envLookup q (envInsert e k v) = envLookup q e := by
  induction e with
  | nil => simp [envInsert, envLookup, h]
  | cons hd tl ih =>
    obtain ⟨k0, v0⟩ := hd
    by_cases h1 : k < k0
    · simp [envInsert, h1, envLookup, h]
    · by_cases h2 : k = k0
      · subst h2
        simp [envInsert, h1, envLookup, h]
      · simp [envInsert, h1, h2, envLookup, ih]

/-- The splitter reproduces the end-to-end scenario of the spec. -/
theorem parse_command_lines_spec_example :
    parse_command_lines ["-cp", "libs/a.jar", "-Xmx512m", "com.example.Main", "--flag", "x"] =
      Except.ok { nailgun_args := ["-cp", "libs/a.jar", "-Xmx512m"]
                  client_args := ["--flag", "x"]
                  client_main_class := "com.example.Main" } := by
  rfl

/-- C4: For every original request and every choice of distribution path,
main class, client args and port, construct_nailgun_client_request
preserves the original request input files, output files, output
directories, timeout, description and target platform (and the remaining
local-only-files digest and nailgunnable flag) exactly, and clears
jdk_home to none; only argv, env and jdk_home can differ from the
original. -/
theorem client_request_preserves_frame (original : ExecuteProcessRequest)
    (pd mc : String) (args : List String) (port : Port) :
    (construct_nailgun_client_request original pd mc args port).input_files =
        original.input_files ∧
    (construct_nailgun_client_request original pd mc args port).output_files =
        original.output_files ∧
    (construct_nailgun_client_request original pd mc args port).output_directories =
        original.output_directories ∧
    (construct_nailgun_client_request original pd mc args port).timeout =
        original.timeout ∧
    (construct_nailgun_client_request original pd mc args port).description =
        original.description ∧
    (construct_nailgun_client_request original pd mc args port).target_platform =
        original.target_platform ∧
    (construct_nailgun_client_request original pd mc args port).local_only_files_because_we_favor_speed_over_correctness_for_this_rule =
        original.local_only_files_because_we_favor_speed_over_correctness_for_this_rule ∧
    (construct_nailgun_client_request original pd mc args port).is_nailgunnable =
        original.is_nailgunnable ∧
    (construct_nailgun_client_request original pd mc args port).jdk_home = none :=
  ⟨rfl, rfl, rfl, rfl, rfl, rfl, rfl, rfl, rfl⟩

/-- C5: For every list of JVM arguments, the server request has argv
equal to those arguments followed by the hardcoded main class and the
fixed ephemeral-port argument (appended last, in that order), empty
declared input files (the empty digest), no declared output files or
directories, and the fixed long 1000-second timeout. -/
theorem server_request_shape (nailgun_name : String) (args : List String)
    (jdk : String) (p : Platform) :
    (construct_nailgun_server_request nailgun_name args jdk p).argv =
        args ++ ["com.martiansoftware.nailgun.NGServer", ":0"] ∧
    (construct_nailgun_server_request nailgun_name args jdk p).input_files =
        EMPTY_DIGEST ∧
    (construct_nailgun_server_request nailgun_name args jdk p).output_files = [] ∧
    (construct_nailgun_server_request nailgun_name args jdk p).output_directories = [] ∧
    (construct_nailgun_server_request nailgun_name args jdk p).timeout =
        { secs := 1000, nanos := 0 } := by
  refine ⟨?_, rfl, rfl, rfl, rfl⟩
  simp [construct_nailgun_server_request, NAILGUN_MAIN_CLASS, ARGS_TO_START_NAILGUN]

/-- C6: For every original request, main class, client args and port, the
client request argv is the distribution path, the hardcoded client
binary path, the separator, the main class, then the client args, and its
environment binds NAILGUN_PORT to the decimal string of the port. -/
theorem client_request_argv_and_port_env (original : ExecuteProcessRequest)
    (pd mc : String) (args : List String) (port : Port) :
    (construct_nailgun_client_request original pd mc args port).argv =
        [pd, "bin/ng/1.0.0/ng", "--", mc] ++ args ∧
    envLookup ("NAILGUN_PORT")
        (construct_nailgun_client_request original pd mc args port).env =
      some (Nat.repr port) :=
  ⟨rfl, envLookup_envInsert_self original.env ("NAILGUN_PORT") (Nat.repr port)⟩

/-- C7: The logical server name is the string nailgun_server_ followed by
the client main class; calculate_nailgun_name takes only the main class,
so the name depends on nothing else. -/
theorem nailgun_name_from_main_class (mc : String) :
    calculate_nailgun_name mc = "nailgun_server_" ++ mc :=
  rfl

/-- C8: construct_nailgun_server_request and
construct_nailgun_client_request are deterministic: two calls of either
on equal inputs construct equal requests. -/
theorem construct_requests_deterministic
    (n1 n2 : String) (a1 a2 : List String) (j1 j2 : String) (p1 p2 : Platform)
    (o1 o2 : ExecuteProcessRequest) (d1 d2 m1 m2 : String)
    (ca1 ca2 : List String) (pt1 pt2 : Port)
    (hn : n1 = n2) (ha : a1 = a2) (hj : j1 = j2) (hp : p1 = p2)
    (ho : o1 = o2) (hd : d1 = d2) (hm : m1 = m2) (hca : ca1 = ca2)
    (hpt : pt1 = pt2) :
    construct_nailgun_server_request n1 a1 j1 p1 =
        construct_nailgun_server_request n2 a2 j2 p2 ∧
    construct_nailgun_client_request o1 d1 m1 ca1 pt1 =
        construct_nailgun_client_request o2 d2 m2 ca2 pt2 := by
  subst hn ha hj hp ho hd hm hca hpt
  exact ⟨rfl, rfl⟩

/-- Witness for C8 at concrete inputs. -/
theorem construct_requests_deterministic_witness :
    construct_nailgun_server_request ("nailgun_server_com.example.Main")
        [("-Xmx512m")] ("/usr/lib/jvm") Platform.linux =
      construct_nailgun_server_request ("nailgun_server_com.example.Main")
        [("-Xmx512m")] ("/usr/lib/jvm") Platform.linux ∧
    construct_nailgun_client_request
        { argv := [("com.example.Main")], env := [], input_files := EMPTY_DIGEST
          output_files := [], output_directories := []
          timeout := { secs := 10, nanos := 0 }, description := "d"
          local_only_files_because_we_favor_speed_over_correctness_for_this_rule :=
            EMPTY_DIGEST
          jdk_home := some ("/usr/lib/jvm"), target_platform := Platform.linux
          is_nailgunnable := true }
        ("/py") ("com.example.Main") [("--flag")] 2113 =
      construct_nailgun_client_request
        { argv := [("com.example.Main")], env := [], input_files := EMPTY_DIGEST
          output_files := [], output_directories := []
          timeout := { secs := 10, nanos := 0 }, description := "d"
          local_only_files_because_we_favor_speed_over_correctness_for_this_rule :=
            EMPTY_DIGEST
          jdk_home := some ("/usr/lib/jvm"), target_platform := Platform.linux
          is_nailgunnable := true }
        ("/py") ("com.example.Main") [("--flag")] 2113 :=
  construct_requests_deterministic _ _ _ _ _ _ _ _ _ _ _ _ _ _ _ _ _ _
    rfl rfl rfl rfl rfl rfl rfl rfl rfl

/-- C10: In the environment of the built client request, the lookup of every key
other than NAILGUN_PORT is exactly its lookup in the original request
environment, while NAILGUN_PORT is bound to the server port - even when
the original environment already bound NAILGUN_PORT, in which case that
binding is silently overwritten. -/
theorem client_env_overwrite_semantics (original : ExecuteProcessRequest)
    (pd mc : String) (args : List String) (port : Port) (k : String)
    (hk : k ≠ "NAILGUN_PORT") :
    envLookup k (construct_nailgun_client_request original pd mc args port).env =
        envLookup k original.env ∧
    envLookup ("NAILGUN_PORT")
        (construct_nailgun_client_request original pd mc args port).env =
      some (Nat.repr port) :=
  ⟨envLookup_envInsert_ne original.env ("NAILGUN_PORT") k (Nat.repr port) hk,
   envLookup_envInsert_self original.env ("NAILGUN_PORT") (Nat.repr port)⟩

/-- A sample request whose environment already binds NAILGUN_PORT. -/
def sampleEnvRequest : ExecuteProcessRequest :=
  { argv := ["com.example.Main"]
    env := [("NAILGUN_PORT", "1"), ("PATH", "/bin")]
    input_files := EMPTY_DIGEST
    output_files := []
    output_directories := []
    timeout := { secs := 10, nanos := 0 }
    description := "sample"
    local_only_files_because_we_favor_speed_over_correctness_for_this_rule :=
      EMPTY_DIGEST
    jdk_home := some ("/usr/lib/jvm")
    target_platform := Platform.linux
    is_nailgunnable := true }

/-- Witness for C10: PATH is preserved and the stale NAILGUN_PORT binding
of sampleEnvRequest is overwritten with 2113. -/
theorem client_env_overwrite_semantics_witness :
    envLookup ("PATH")
        (construct_nailgun_client_request sampleEnvRequest ("/py")
          ("com.example.Main") [] 2113).env =
      envLookup ("PATH") sampleEnvRequest.env ∧
    envLookup ("NAILGUN_PORT")
        (construct_nailgun_client_request sampleEnvRequest ("/py")
          ("com.example.Main") [] 2113).env =
      some (Nat.repr 2113) :=
  client_env_overwrite_semantics sampleEnvRequest ("/py") ("com.example.Main")
    [] 2113 ("PATH") (by decide)

/-- Sample collaborators: extraction takes the first wrapped request, the
local runner yields 7, workdirs are the name itself, connect yields port
2113. -/
def sampleCollaborators : Collaborators Nat :=
  { extract_compatible_request := fun m => m.requests.head?
    inner_run := fun _ _ => Except.ok 7
    digest := fun _ => EMPTY_DIGEST
    get_nailgun_workdir := fun n => Except.ok n
    connect := fun _ _ _ _ _ _ => Except.ok 2113 }

/-- A sample request that is not nailgunnable. -/
def samplePlainRequest : ExecuteProcessRequest :=
  { argv := ["/bin/echo", "hello"]
    env := []
    input_files := EMPTY_DIGEST
    output_files := []
    output_directories := []
    timeout := { secs := 10, nanos := 0 }
    description := "plain"
    local_only_files_because_we_favor_speed_over_correctness_for_this_rule :=
      EMPTY_DIGEST
    jdk_home := none
    target_platform := Platform.linux
    is_nailgunnable := false }

/-- C1: For every request whose locally-extracted form is not
nailgunnable, run returns exactly the result of the inner local executor on
the original request, unchanged, and its only collaborator invocation is
that single delegation (pure pass-through). -/
theorem run_passthrough_not_nailgunnable {ρ : Type} (c : Collaborators ρ)
    (pd : String) (req : MultiPlatformExecuteProcessRequest) (ctx : Context)
    (r : ExecuteProcessRequest)
    (hx : c.extract_compatible_request req = some r)
    (hng : r.is_nailgunnable = false) :
    CommandRunner.run c pd req ctx =
      (some (c.inner_run req ctx), [Effect.delegateRun req]) := by
  unfold CommandRunner.run
  rw [hx]
  simp [hng]

/-- Witness for C1 on samplePlainRequest. -/
theorem run_passthrough_not_nailgunnable_witness :
    CommandRunner.run sampleCollaborators ("/py") (mpFrom samplePlainRequest)
        { build_id := "b" } =
      (some (Except.ok 7), [Effect.delegateRun (mpFrom samplePlainRequest)]) :=
  run_passthrough_not_nailgunnable sampleCollaborators ("/py")
    (mpFrom samplePlainRequest) { build_id := "b" } samplePlainRequest rfl rfl

/-- C9: run unwraps the extraction result before looking at any flag:
whenever no locally compatible request can be extracted, run ends in the
panic of .unwrap() (modelled as the none result) with no collaborator
invoked, rather than returning an error - an unstated precondition of the
public run operation, on the pass-through path included. -/
theorem run_requires_compatible_request {ρ : Type} (c : Collaborators ρ)
    (pd : String) (req : MultiPlatformExecuteProcessRequest) (ctx : Context)
    (hx : c.extract_compatible_request req = none) :
    CommandRunner.run c pd req ctx = (none, []) := by
  unfold CommandRunner.run
  rw [hx]

/-- Collaborators whose local runner finds no compatible request. -/
def rejectingCollaborators : Collaborators Nat :=
  { extract_compatible_request := fun _ => none
    inner_run := fun _ _ => Except.ok 7
    digest := fun _ => EMPTY_DIGEST
    get_nailgun_workdir := fun n => Except.ok n
    connect := fun _ _ _ _ _ _ => Except.ok 2113 }

/-- Witness for C9: even a non-nailgunnable request ends in the panic
result when extraction fails. -/
theorem run_requires_compatible_request_witness :
    CommandRunner.run rejectingCollaborators ("/py") (mpFrom samplePlainRequest)
        { build_id := "b" } = (none, []) :=
  run_requires_compatible_request rejectingCollaborators ("/py")
    (mpFrom samplePlainRequest) { build_id := "b" } rfl

/-- A nailgunnable request with a parseable argv but no jdk_home. -/
def noJdkRequest : ExecuteProcessRequest :=
  { argv := ["com.example.Main"]
    env := []
    input_files := EMPTY_DIGEST
    output_files := []
    output_directories := []
    timeout := { secs := 10, nanos := 0 }
    description := "no jdk"
    local_only_files_because_we_favor_speed_over_correctness_for_this_rule :=
      EMPTY_DIGEST
    jdk_home := none
    target_platform := Platform.linux
    is_nailgunnable := true }

/-- A nailgunnable request with no jdk_home whose argv has no main-class
token at all, so the splitter rejects it before the jdk_home check. -/
def noJdkNoMainRequest : ExecuteProcessRequest :=
  { argv := []
    env := []
    input_files := EMPTY_DIGEST
    output_files := []
    output_directories := []
    timeout := { secs := 10, nanos := 0 }
    description := "no jdk, unparseable"
    local_only_files_because_we_favor_speed_over_correctness_for_this_rule :=
      EMPTY_DIGEST
    jdk_home := none
    target_platform := Platform.linux
    is_nailgunnable := true }

/-- C3 counterexample: a nailgunnable request with jdk_home absent whose
argv does not parse fails with the parse error of the splitter, not with the
configuration error - run parses the command line before it checks
jdk_home, so the claim as stated fails on this input. -/
theorem run_missing_jdk_counterexample :
    CommandRunner.run sampleCollaborators ("/py") (mpFrom noJdkNoMainRequest)
        { build_id := "b" } =
      (some (Except.error ("Malformed JVM command line: no main class found")), []) ∧
    (CommandRunner.run sampleCollaborators ("/py") (mpFrom noJdkNoMainRequest)
        { build_id := "b" }).fst ≠
      some (Except.error ("JDK home must be specified for all nailgunnable requests.")) := by
  refine ⟨rfl, ?_⟩
  intro h
  have h1 : some (Except.error ("Malformed JVM command line: no main class found") :
        Except String Nat) =
      some (Except.error ("JDK home must be specified for all nailgunnable requests.")) := h
  injection h1 with h2
  injection h2 with h3
  exact absurd h3 (by decide)

/-- C3 as amended: for every request whose extracted form is nailgunnable
and parses as a JVM command line but has jdk_home absent, run fails with
the configuration error and makes no collaborator invocation at all - in
particular the pool is never contacted, so no server process can have
been spawned. -/
theorem run_missing_jdk_config_error {ρ : Type} (c : Collaborators ρ)
    (pd : String) (req : MultiPlatformExecuteProcessRequest) (ctx : Context)
    (r : ExecuteProcessRequest) (parsed : ParsedJVMCommandLines)
    (hx : c.extract_compatible_request req = some r)
    (hng : r.is_nailgunnable = true)
    (hparse : parse_command_lines r.argv = Except.ok parsed)
    (hjdk : r.jdk_home = none) :
    CommandRunner.run c pd req ctx =
      (some (Except.error ("JDK home must be specified for all nailgunnable requests.")),
       []) := by
  unfold CommandRunner.run
  rw [hx]
  simp [hng, hparse, hjdk]

/-- Witness for the amended C3 on noJdkRequest. -/
theorem run_missing_jdk_config_error_witness :
    CommandRunner.run sampleCollaborators ("/py") (mpFrom noJdkRequest)
        { build_id := "b" } =
      (some (Except.error ("JDK home must be specified for all nailgunnable requests.")),
       []) :=
  run_missing_jdk_config_error sampleCollaborators ("/py") (mpFrom noJdkRequest)
    { build_id := "b" } noJdkRequest
    { nailgun_args := [], client_args := [], client_main_class := "com.example.Main" }
    rfl rfl rfl rfl

/-- C2: under the scheduler model of the capacity-1 AsyncSemaphore built
in CommandRunner::new - where a run() call enters its Pool.connect only
by taking the single permit, returns the permit in the very step in which
connect resolves (success or failure alike), and performs its client
delegation outside the permit - no two calls are ever inside Pool.connect
in the same reachable state, so a server for a given logical name is
never started twice concurrently. -/
theorem pool_connect_mutual_exclusion {n : Nat} {s : PoolSchedState n}
    (h : PoolReachable n s) (i j : Fin n)
    (hi : s.phase i = Phase.inConnect) (hj : s.phase j = Phase.inConnect) :
    i = j := by
  obtain ⟨-, hconn⟩ := poolInv_reachable h
  exact ((hconn i hi).2 j hj).symm

/-- A reachable two-caller state in which caller 0 holds the permit and
is inside Pool.connect. -/
def demoPoolState : PoolSchedState 2 :=
  { sem := 0
    phase := Function.update (fun _ => Phase.beforeAcquire) (0 : Fin 2) Phase.inConnect }

theorem demoPoolState_reachable : PoolReachable 2 demoPoolState :=
  PoolReachable.step PoolReachable.init
    (PoolStep.acquireAndConnect (initPoolState 2) (0 : Fin 2) rfl (by decide))

/-- Witness for C2 at the concrete reachable state demoPoolState. -/
theorem pool_connect_mutual_exclusion_witness :
    demoPoolState.phase (0 : Fin 2) = Phase.inConnect ∧ (0 : Fin 2) = (0 : Fin 2) :=
  ⟨by decide,
   pool_connect_mutual_exclusion demoPoolState_reachable (0 : Fin 2) (0 : Fin 2)
     (by decide) (by decide)⟩
